import Mathlib

/-!
Verification of the Forecast & Seasonality Allocation Engine of the `lego`
business-intelligence pipeline.  The numeric computations of
`compute_seasonality_factors.py`, `compute_forecast.py`,
`compute_overstock.py` and `compute_ltm_metrics.py` are shallowly embedded
over the rationals, and the specified properties are proved about the
embedding.
-/

namespace Lego

/-- A calendar month, 0-based index (month 1 = January is index 0). -/
abbrev Month := Fin 12

/-- ASCII lower-casing of one character (metric labels are ASCII). -/
def lowerChar (c : Char) : Char :=
  if 65 ≤ c.toNat && c.toNat ≤ 90 then Char.ofNat (c.toNat + 32) else c

/-- ASCII lower-casing of a string: the SQL `LOWER(...)` / Python
`str.lower()` applied to the free-text metric labels. -/
def lowerString (s : String) : String :=
  String.mk (s.data.map lowerChar)

/-- A row of the `asin` table as read by `compute_seasonality_factors.py`:
the seasonality-group name (column `seasonality`, free text, nullable) and
the EOL flag (`eol IS NULL OR eol = 0` is modelled as `eol = false`). -/
structure AsinSeasonRow where
  id : Nat
  seasonality : Option String
  eol : Bool
deriving Repr, DecidableEq

/-- A row of the `financials` table: product id, free-text metric label,
calendar year and month of the fact, signed value. -/
structure Fact where
  asinId : Nat
  metric : String
  year : Nat
  month : Month
  value : ℚ
deriving Repr, DecidableEq

/-- A row of the `seasonality` table: id, name, and the twelve
distribution columns `unit_01 .. unit_12`. -/
structure Seasonality where
  id : Nat
  name : String
  dist : Month → ℚ
deriving DecidableEq

/-- The join-and-filter predicate of the seasonality query: the fact belongs
to a non-EOL asin whose `seasonality` column equals the group name, its
metric lower-cases to `net units`, and its month is month `m` of 2024. -/
def factSelected (asins : List AsinSeasonRow) (groupName : String) (m : Month)
    (f : Fact) : Bool :=
  (asins.any fun a => a.id == f.asinId && a.seasonality == some groupName && !a.eol)
    && lowerString f.metric == "net units" && f.year == 2024 && f.month == m

/-- `monthly_units[m]`: the 2024 units of the group summed for one month. -/
def monthlyUnits (asins : List AsinSeasonRow) (facts : List Fact)
    (groupName : String) (m : Month) : ℚ :=
  ((facts.filter (factSelected asins groupName m)).map (·.value)).sum

/-- `total_units`: the group's 2024 units summed over all twelve months. -/
def totalUnits (asins : List AsinSeasonRow) (facts : List Fact)
    (groupName : String) : ℚ :=
  ∑ m : Month, monthlyUnits asins facts groupName m

/-- One iteration of the per-group loop of `compute_seasonality_factors`:
if the total is zero the group is skipped (row untouched), otherwise all
twelve `unit_XX` columns are set to `monthly_units[m] / total`. -/
def seasonalityStep (asins : List AsinSeasonRow) (facts : List Fact)
    (g : Seasonality) : Seasonality :=
  let total := totalUnits asins facts g.name
  if total = 0 then g
  else { g with dist := fun m => monthlyUnits asins facts g.name m / total }

/-- The whole seasonality run: every group in the table is processed
independently by `seasonalityStep`. -/
def computeSeasonalityFactors (asins : List AsinSeasonRow) (facts : List Fact)
    (groups : List Seasonality) : List Seasonality :=
  groups.map (seasonalityStep asins facts)

/-! ### Forecast allocator (`compute_forecast.py`) -/

/-- One asin row of the forecast query: cached trailing metrics and the
twelve seasonality columns brought in by the LEFT JOIN (`sdist = none`
when the join finds no seasonality row).  NULL metric columns are
coerced to 0 by `float(... or 0)` in the source, so the metrics are plain
rationals here. -/
structure AsinForecastRow where
  asinId : Nat
  brandId : Option Nat
  seasonalityId : Option Nat
  eol : Bool
  ltmRevenues : ℚ
  ltmUnits : ℚ
  l3mRevenues : ℚ
  l3mUnits : ℚ
  sdist : Option (Month → ℚ)

/-- The seasonality factor `float(asin[unit_col] or 0)` for one month:
0 when the LEFT JOIN found no seasonality row or the column is NULL/0. -/
def AsinForecastRow.distVal (r : AsinForecastRow) (m : Month) : ℚ :=
  match r.sdist with
  | none => 0
  | some d => d m

/-- A row of the `forecast_asin` table: (asin_id, metric, month, value). -/
structure ForecastRecord where
  asinId : Nat
  metric : String
  month : String
  value : ℚ
deriving Repr, DecidableEq

/-- The fixed forecast window Nov 2025 – Oct 2026, each month paired with
its calendar-month index (`month_num - 1`). -/
def forecastMonths : List (String × Month) :=
  [("2025-11-01", ⟨10, by omega⟩), ("2025-12-01", ⟨11, by omega⟩),
   ("2026-01-01", ⟨0, by omega⟩), ("2026-02-01", ⟨1, by omega⟩),
   ("2026-03-01", ⟨2, by omega⟩), ("2026-04-01", ⟨3, by omega⟩),
   ("2026-05-01", ⟨4, by omega⟩), ("2026-06-01", ⟨5, by omega⟩),
   ("2026-07-01", ⟨6, by omega⟩), ("2026-08-01", ⟨7, by omega⟩),
   ("2026-09-01", ⟨8, by omega⟩), ("2026-10-01", ⟨9, by omega⟩)]

/-- The 24 all-zero records appended for an EOL or seasonality-less asin:
a `Net units` and a `Net revenue` row per forecast month, value 0. -/
def zeroAsinRecords (asinId : Nat) : List ForecastRecord :=
  forecastMonths.flatMap fun p =>
    [⟨asinId, "Net units", p.1, 0⟩, ⟨asinId, "Net revenue", p.1, 0⟩]

/-- `base_period_sum`: the seasonality factors of August–October
(`unit_08 + unit_09 + unit_10`). -/
def anchorSum (r : AsinForecastRow) : ℚ :=
  r.distVal ⟨7, by omega⟩ + r.distVal ⟨8, by omega⟩ + r.distVal ⟨9, by omega⟩

/-- `total_next_12_months = l3m_units / base_period_sum` (a scale factor). -/
def runRate (r : AsinForecastRow) : ℚ :=
  r.l3mUnits / anchorSum r

/-- `asp`: the average selling price, `l3m_revenues / l3m_units` when L3M
units are positive, falling back to `ltm_revenues / ltm_units` when LTM
units are positive, else 0. -/
def asp (r : AsinForecastRow) : ℚ :=
  if r.l3mUnits > 0 then r.l3mRevenues / r.l3mUnits
  else if r.ltmUnits > 0 then r.ltmRevenues / r.ltmUnits
  else 0

/-- The records the per-asin loop of `compute_asin_forecasts` appends for
one asin: EOL, missing/zero `unit_08` seasonality, and zero base-period
cases produce the 24 zero records; otherwise each month's units are
`seasonality_factor * total_next_12_months` and its revenue is
`units * asp`. -/
def asinForecastRecords (r : AsinForecastRow) : List ForecastRecord :=
  if r.eol then zeroAsinRecords r.asinId
  else if r.seasonalityId = none ∨ r.distVal ⟨7, by omega⟩ = 0 then
    zeroAsinRecords r.asinId
  else if anchorSum r = 0 then zeroAsinRecords r.asinId
  else
    forecastMonths.flatMap fun p =>
      [⟨r.asinId, "Net units", p.1, r.distVal p.2 * runRate r⟩,
       ⟨r.asinId, "Net revenue", p.1, r.distVal p.2 * runRate r * asp r⟩]

/-- The full-table forecast run: every asin with a brand is processed, in
table order, and the collected records are inserted. -/
def computeAsinForecasts (asins : List AsinForecastRow) : List ForecastRecord :=
  (asins.filter fun r => r.brandId.isSome).flatMap asinForecastRecords

/-- A row of the `forecast_brand` table. -/
structure BrandForecastRecord where
  brandId : Nat
  metric : String
  month : String
  value : ℚ
deriving Repr, DecidableEq

/-- The rows of `forecast_asin INNER JOIN asin` restricted to asins with a
brand, keyed by (brand_id, metric, month). -/
def joinedBrandRows (asins : List AsinForecastRow) (t : List ForecastRecord) :
    List ((Nat × String × String) × ℚ) :=
  t.flatMap fun fa =>
    (asins.filter fun a => a.asinId == fa.asinId && a.brandId.isSome).map
      fun a => ((a.brandId.getD 0, fa.metric, fa.month), fa.value)

/-- `GROUP BY brand_id, metric, month` with `SUM(value)`. -/
def groupBySum (rows : List ((Nat × String × String) × ℚ)) :
    List BrandForecastRecord :=
  ((rows.map (·.1)).dedup).map fun k =>
    ⟨k.1, k.2.1, k.2.2, ((rows.filter (·.1 == k)).map (·.2)).sum⟩

/-- The database state the forecast scripts touch. -/
structure ForecastDB where
  asins : List AsinForecastRow
  forecastAsin : List ForecastRecord
  forecastBrand : List BrandForecastRecord

/-- The all-asins forecast stage: DELETE FROM forecast_asin, then insert
the recomputed records. -/
def runAsinForecastAll (db : ForecastDB) : ForecastDB :=
  { db with forecastAsin := computeAsinForecasts db.asins }

/-- `compute_brand_forecasts`: DELETE FROM forecast_brand, then insert the
per-(brand, metric, month) sums of the current `forecast_asin` rows. -/
def runBrandForecasts (db : ForecastDB) : ForecastDB :=
  { db with forecastBrand := groupBySum (joinedBrandRows db.asins db.forecastAsin) }

/-! ### Overstock evaluator (`compute_overstock.py`) -/

/-- The six months of the overstock horizon (Nov 2025 – Apr 2026). -/
def first6Months : List String :=
  ["2025-11-01", "2025-12-01", "2026-01-01", "2026-02-01", "2026-03-01", "2026-04-01"]

/-- The correlated subquery `f.forecast_6m_units` with its COALESCE to 0:
sum of `Net units` forecast values for the asin over the 6-month horizon. -/
def forecast6mUnits (t : List ForecastRecord) (asinId : Nat) : ℚ :=
  ((t.filter fun rec =>
      rec.asinId == asinId && rec.metric == "Net units"
        && first6Months.contains rec.month).map (·.value)).sum

/-- An `asin` row as seen by the overstock update. -/
structure AsinOverstockRow where
  asinId : Nat
  brandId : Option Nat
  stockUnits : ℚ
  stockValue : ℚ
  stockOverstockUnit : ℚ
  stockOverstockValue : ℚ
deriving Repr, DecidableEq

/-- The row-wise effect of the overstock UPDATE: rows with a brand get
`GREATEST(0, stock_units - forecast_6m_units)` and the guarded
`(stock_units - f6m) * (stock_value / stock_units)` value; rows without a
brand are untouched by the `WHERE brand_id IS NOT NULL` clause. -/
def overstockStep (t : List ForecastRecord) (a : AsinOverstockRow) :
    AsinOverstockRow :=
  if a.brandId.isSome then
    let f6 := forecast6mUnits t a.asinId
    { a with
      stockOverstockUnit := max 0 (a.stockUnits - f6),
      stockOverstockValue :=
        if a.stockUnits > 0 ∧ a.stockValue > 0 ∧ a.stockUnits - f6 > 0 then
          (a.stockUnits - f6) * (a.stockValue / a.stockUnits)
        else 0 }
  else a

/-- The spec's `unit_cogs`: `stock_value / stock_units` if both are
positive, else 0.  Stated from the spec's words, to be compared with the
single-CASE formulation in the source. -/
def unitCogsSpec (a : AsinOverstockRow) : ℚ :=
  if a.stockUnits > 0 ∧ a.stockValue > 0 then a.stockValue / a.stockUnits else 0

/-- A `brand` row as seen by the brand overstock rollup. -/
structure BrandOverstockRow where
  id : Nat
  stockOverstockUnit : ℚ
  stockOverstockValue : ℚ
deriving Repr, DecidableEq

/-- The row-wise effect of `compute_brand_overstock`: each brand's
overstock unit/value become the sums over its member asins (COALESCE
turns an empty group into 0, matching the empty-list sum). -/
def brandOverstockStep (asins : List AsinOverstockRow) (b : BrandOverstockRow) :
    BrandOverstockRow :=
  { b with
    stockOverstockUnit :=
      ((asins.filter fun a => a.brandId == some b.id).map
        (·.stockOverstockUnit)).sum,
    stockOverstockValue :=
      ((asins.filter fun a => a.brandId == some b.id).map
        (·.stockOverstockValue)).sum }

/-- The brand overstock rollup over the whole `brand` table. -/
def computeBrandOverstock (asins : List AsinOverstockRow)
    (brands : List BrandOverstockRow) : List BrandOverstockRow :=
  brands.map (brandOverstockStep asins)

/-! ### Trailing-metrics aggregator (`compute_ltm_metrics.py`), brand pass -/

/-- A `brand` row with its `group` label and cached LTM metric columns. -/
structure BrandRow where
  id : Nat
  grp : Option String
  ltmRevenues : ℚ
  ltmCm3 : ℚ
  ltmBrandEbitda : ℚ
  stockValue : ℚ
deriving Repr, DecidableEq

/-- A row of `financials_summary_monthly_brand`. -/
structure BrandSummaryFact where
  brandId : Nat
  marketplace : String
  metric : String
  year : Nat
  monthNum : Nat
  totalValue : ℚ
deriving Repr, DecidableEq

/-- A row of the `stock` table (asin_id is nullable). -/
structure StockRow where
  asinId : Option Nat
  year : Nat
  monthNum : Nat
  value : ℚ
deriving Repr, DecidableEq

/-- An `asin` row reduced to what the brand stock join reads. -/
structure AsinBrandRow where
  id : Nat
  brandId : Option Nat
deriving Repr, DecidableEq

/-- The LTM window predicate `(YEAR = 2024 AND MONTH >= 11) OR
(YEAR = 2025 AND MONTH <= 10)`. -/
def inLtmWindow (year monthNum : Nat) : Bool :=
  (year == 2024 && 11 ≤ monthNum) || (year == 2025 && monthNum ≤ 10)

/-- The brand financials query: rows of the brand summary for this brand,
marketplace `ALL`, inside the LTM window, with metric lower-casing to
`net revenue` or `cm3`; grouped by the metric string with summed values. -/
def brandLtmMetricRows (facts : List BrandSummaryFact) (brandId : Nat) :
    List (String × ℚ) :=
  let sel := facts.filter fun f =>
    f.brandId == brandId && f.marketplace == "ALL"
      && inLtmWindow f.year f.monthNum
      && (lowerString f.metric == "net revenue" || lowerString f.metric == "cm3")
  ((sel.map (·.metric)).dedup).map fun mName =>
    (mName, ((sel.filter fun f => f.metric == mName).map (·.totalValue)).sum)

/-- The extraction loop over the grouped rows: the running variable starts
at 0 and is overwritten by each row whose metric lower-cases to `label`. -/
def extractMetric (rows : List (String × ℚ)) (label : String) : ℚ :=
  rows.foldl (fun acc r => if lowerString r.1 == label then r.2 else acc) 0

/-- The brand stock query: `stock INNER JOIN asin` restricted to this
brand's asins and the LTM window, summed (NULL sum coalesced to 0). -/
def brandLtmStock (stocks : List StockRow) (asins : List AsinBrandRow)
    (brandId : Nat) : ℚ :=
  ((stocks.filter fun s =>
      (asins.any fun a => some a.id == s.asinId && a.brandId == some brandId)
        && inLtmWindow s.year s.monthNum).map (·.value)).sum

/-- The per-brand body of `compute_brand_ltm_metrics`: recomputes the four
cached metric columns from the summary, with the zero-guarded EBITDA
percentage. -/
def updateBrandLtm (facts : List BrandSummaryFact) (stocks : List StockRow)
    (asins : List AsinBrandRow) (b : BrandRow) : BrandRow :=
  let rows := brandLtmMetricRows facts b.id
  let rev := extractMetric rows "net revenue"
  let cm3 := extractMetric rows "cm3"
  { b with
    ltmRevenues := rev,
    ltmCm3 := cm3,
    ltmBrandEbitda := if rev > 0 then cm3 / rev * 100 else 0,
    stockValue := brandLtmStock stocks asins b.id }

/-- The all-brands selection predicate of the brand pass:
`WHERE (group IS NULL OR group != 'stock')`. -/
def ltmBrandSelected (b : BrandRow) : Bool :=
  b.grp == none || !(b.grp == some "stock")

/-- The brand pass with no specific brand id: exactly the selected brands
are updated, every other row of the `brand` table is untouched. -/
def computeBrandLtmMetricsAll (facts : List BrandSummaryFact)
    (stocks : List StockRow) (asins : List AsinBrandRow)
    (brands : List BrandRow) : List BrandRow :=
  brands.map fun b =>
    if ltmBrandSelected b then updateBrandLtm facts stocks asins b else b

/-! ### Sample data used by the concrete witnesses -/

/-- One active asin in group `Toys`. -/
def sampleAsins : List AsinSeasonRow := [⟨1, some "Toys", false⟩]

/-- A single 2024 `Net units` fact of 10 units in January. -/
def sampleFacts : List Fact := [⟨1, "Net units", 2024, ⟨0, by omega⟩, 10⟩]

/-- A `Toys` group with an all-zero prior distribution. -/
def sampleGroup : Seasonality := ⟨5, "Toys", fun _ => 0⟩

/-- The spec's `Toys` distribution: 0.15 for August–October (0-based
indices 7–9), 0.05 for every other month. -/
def toysDist : Month → ℚ := fun m =>
  if 7 ≤ m.val ∧ m.val ≤ 9 then 3 / 20 else 1 / 20

/-- The spec's worked product: non-EOL, in `Toys`, anchor-window unit sum
90 (`l3m_units`), recent revenue 900 (`l3m_revenues`), unit price 10. -/
def toyRow : AsinForecastRow :=
  ⟨42, some 1, some 5, false, 0, 0, 900, 90, some toysDist⟩

/-- An EOL product with a brand, used as the zeroing witness. -/
def eolRow : AsinForecastRow :=
  ⟨7, some 2, none, true, 0, 0, 0, 0, none⟩

/-- A product whose recent window sold nothing but whose trailing year
sold 50 units for 250 revenue, used as the price-fallback witness. -/
def fallbackRow : AsinForecastRow :=
  ⟨9, some 3, some 5, false, 250, 50, 0, 0, some toysDist⟩

/-- The forecast table of the overstock scenario: one 6-month-horizon
`Net units` row of 300 units. -/
def stockTable : List ForecastRecord := [⟨1, "Net units", "2025-11-01", 300⟩]

/-- The spec's overstock product: 500 stock units worth 1000. -/
def stockRow : AsinOverstockRow := ⟨1, some 1, 500, 1000, 0, 0⟩

/-- A brand in group `stock`, with nonzero cached metrics. -/
def stockBrand : BrandRow := ⟨11, some "stock", 1, 2, 3, 4⟩

/-- A brand-summary fact the LTM pass would pick up if it selected the
brand. -/
def brandFacts : List BrandSummaryFact := [⟨11, "ALL", "Net revenue", 2025, 1, 77⟩]

/-- Asins for the signed-input seasonality scenario. -/
def negAsins : List AsinSeasonRow := [⟨1, some "Gadgets", false⟩]

/-- 2024 unit facts with a negative January month (net returns). -/
def negFacts : List Fact :=
  [⟨1, "Net units", 2024, ⟨0, by omega⟩, -10⟩,
   ⟨1, "Net units", 2024, ⟨1, by omega⟩, 20⟩]

/-- The `Gadgets` group with an all-zero prior distribution. -/
def negGroup : Seasonality := ⟨7, "Gadgets", fun _ => 0⟩

end Lego

namespace Lego

/-- The nonzero-total branch of the per-group loop writes all twelve
columns at once as `monthly_units[m] / total`. -/
lemma seasonalityStep_dist_of_ne (asins : List AsinSeasonRow)
    (facts : List Fact) (g : Seasonality)
    (h : totalUnits asins facts g.name ≠ 0) :
    (seasonalityStep asins facts g).dist =
      fun m => monthlyUnits asins facts g.name m /
        totalUnits asins facts g.name := by
  simp [seasonalityStep, h]

/-- The zero-total branch of the per-group loop leaves the row unchanged. -/
lemma seasonalityStep_of_eq (asins : List AsinSeasonRow)
    (facts : List Fact) (g : Seasonality)
    (h : totalUnits asins facts g.name = 0) :
    seasonalityStep asins facts g = g := by
  simp [seasonalityStep, h]

/-- C2: for a seasonality group whose total 2024 units over non-EOL
members is nonzero, the run writes `distribution[m] = monthly_units[m] /
total` for every month, and the written distribution sums to within
`1e-9` of 1. -/
theorem seasonality_normalization (asins : List AsinSeasonRow)
    (facts : List Fact) (g : Seasonality)
    (h : totalUnits asins facts g.name ≠ 0) :
    (∀ m : Month, (seasonalityStep asins facts g).dist m =
        monthlyUnits asins facts g.name m / totalUnits asins facts g.name) ∧
    |(∑ m : Month, (seasonalityStep asins facts g).dist m) - 1|
      < 1 / 1000000000 := by
  have hstep := seasonalityStep_dist_of_ne asins facts g h
  refine ⟨fun m => by rw [hstep], ?_⟩
  rw [hstep]
  have hsum : (∑ m : Month, monthlyUnits asins facts g.name m /
      totalUnits asins facts g.name) = 1 := by
    rw [← Finset.sum_div]
    exact div_self h
  rw [hsum]
  norm_num

/-- Witness for C2 at the sample data: one January fact of 10 units gives
total 10 and a distribution concentrated on January. -/
theorem seasonality_normalization_witness :
    totalUnits sampleAsins sampleFacts sampleGroup.name ≠ 0 ∧
    ((∀ m : Month, (seasonalityStep sampleAsins sampleFacts sampleGroup).dist m =
        monthlyUnits sampleAsins sampleFacts sampleGroup.name m /
          totalUnits sampleAsins sampleFacts sampleGroup.name) ∧
    |(∑ m : Month, (seasonalityStep sampleAsins sampleFacts sampleGroup).dist m) - 1|
      < 1 / 1000000000) :=
  ⟨by simp +decide [totalUnits, monthlyUnits, factSelected, sampleAsins,
      sampleFacts, sampleGroup, Fin.sum_univ_succ],
   seasonality_normalization sampleAsins sampleFacts sampleGroup
    (by simp +decide [totalUnits, monthlyUnits, factSelected, sampleAsins,
      sampleFacts, sampleGroup, Fin.sum_univ_succ])⟩

/-- C7: a group whose 2024 total is zero is skipped with its stored
distribution row completely untouched; every group of the table is
processed independently of the others (position `i` of the output depends
only on position `i` of the input); and any group that is written has all
twelve values written together from its own monthly sums. -/
theorem seasonality_zero_total_frame (asins : List AsinSeasonRow)
    (facts : List Fact) (g : Seasonality)
    (h : totalUnits asins facts g.name = 0) :
    seasonalityStep asins facts g = g ∧
    (∀ (groups : List Seasonality) (i : Nat),
      (computeSeasonalityFactors asins facts groups)[i]? =
        (groups[i]?).map (seasonalityStep asins facts)) ∧
    (∀ g2 : Seasonality, totalUnits asins facts g2.name ≠ 0 →
      ∀ m : Month, (seasonalityStep asins facts g2).dist m =
        monthlyUnits asins facts g2.name m /
          totalUnits asins facts g2.name) := by
  refine ⟨seasonalityStep_of_eq asins facts g h, ?_, ?_⟩
  · intro groups i
    simp [computeSeasonalityFactors]
  · intro g2 h2 m
    rw [seasonalityStep_dist_of_ne asins facts g2 h2]

/-- Witness for C7: with no facts at all, the `Toys` group's total is zero
and its row survives the run unchanged. -/
theorem seasonality_zero_total_frame_witness :
    totalUnits sampleAsins [] sampleGroup.name = 0 ∧
    (seasonalityStep sampleAsins [] sampleGroup = sampleGroup ∧
    (∀ (groups : List Seasonality) (i : Nat),
      (computeSeasonalityFactors sampleAsins [] groups)[i]? =
        (groups[i]?).map (seasonalityStep sampleAsins [])) ∧
    (∀ g2 : Seasonality, totalUnits sampleAsins [] g2.name ≠ 0 →
      ∀ m : Month, (seasonalityStep sampleAsins [] g2).dist m =
        monthlyUnits sampleAsins [] g2.name m /
          totalUnits sampleAsins [] g2.name)) := by
  have h0 : totalUnits sampleAsins [] sampleGroup.name = 0 := by
    simp [totalUnits, monthlyUnits, factSelected]
  exact ⟨h0, seasonality_zero_total_frame sampleAsins [] sampleGroup h0⟩

/-- C9 fails as stated: with signed unit facts a written factor can be
negative.  A −10-unit January and a +20-unit February give total 10 and a
January factor of −1. -/
theorem seasonality_negative_factor_cex :
    totalUnits negAsins negFacts negGroup.name ≠ 0 ∧
    (seasonalityStep negAsins negFacts negGroup).dist ⟨0, by omega⟩ < 0 := by
  have htot : totalUnits negAsins negFacts negGroup.name = 10 := by
    simp +decide [totalUnits, monthlyUnits, factSelected, negAsins, negFacts,
      negGroup, Fin.sum_univ_succ]
    norm_num
  have hne : totalUnits negAsins negFacts negGroup.name ≠ 0 := by
    rw [htot]; norm_num
  have hmu : monthlyUnits negAsins negFacts negGroup.name ⟨0, by omega⟩ = -10 := by
    simp +decide [monthlyUnits, factSelected, negAsins, negFacts, negGroup]
  refine ⟨hne, ?_⟩
  rw [seasonalityStep_dist_of_ne negAsins negFacts negGroup hne]
  simp only []
  rw [hmu, htot]
  norm_num

/-- C9 amended: whenever every monthly unit sum of the group is
non-negative (in particular whenever the unit facts are non-negative),
every factor written by the nonzero-total branch is non-negative. -/
theorem seasonality_nonneg_of_nonneg_input (asins : List AsinSeasonRow)
    (facts : List Fact) (g : Seasonality)
    (h : totalUnits asins facts g.name ≠ 0)
    (hpos : ∀ m : Month, 0 ≤ monthlyUnits asins facts g.name m) :
    ∀ m : Month, 0 ≤ (seasonalityStep asins facts g).dist m := by
  intro m
  rw [seasonalityStep_dist_of_ne asins facts g h]
  have htot : 0 ≤ totalUnits asins facts g.name :=
    Finset.sum_nonneg fun i _ => hpos i
  exact div_nonneg (hpos m) htot

/-- Witness for the amended C9 at the sample data: the single positive
January fact gives non-negative monthly sums and non-negative factors. -/
theorem seasonality_nonneg_of_nonneg_input_witness :
    (totalUnits sampleAsins sampleFacts sampleGroup.name ≠ 0 ∧
     (∀ m : Month, 0 ≤ monthlyUnits sampleAsins sampleFacts sampleGroup.name m)) ∧
    ∀ m : Month, 0 ≤ (seasonalityStep sampleAsins sampleFacts sampleGroup).dist m := by
  have h1 : totalUnits sampleAsins sampleFacts sampleGroup.name ≠ 0 := by
    simp +decide [totalUnits, monthlyUnits, factSelected, sampleAsins,
      sampleFacts, sampleGroup, Fin.sum_univ_succ]
  have h2 : ∀ m : Month, 0 ≤ monthlyUnits sampleAsins sampleFacts sampleGroup.name m := by
    intro m
    fin_cases m <;> simp +decide [monthlyUnits, factSelected, sampleAsins,
      sampleFacts, sampleGroup]
  exact ⟨⟨h1, h2⟩, seasonality_nonneg_of_nonneg_input sampleAsins sampleFacts
    sampleGroup h1 h2⟩

/-- In the active branch (non-EOL, seasonality present with nonzero
`unit_08`, nonzero base-period sum) the per-asin loop appends exactly the
run-rate allocation records. -/
lemma asinForecastRecords_active (r : AsinForecastRow)
    (h1 : r.eol = false) (h2 : r.seasonalityId ≠ none)
    (h3 : r.distVal ⟨7, by omega⟩ ≠ 0) (h4 : anchorSum r ≠ 0) :
    asinForecastRecords r =
      forecastMonths.flatMap fun p =>
        [⟨r.asinId, "Net units", p.1, r.distVal p.2 * runRate r⟩,
         ⟨r.asinId, "Net revenue", p.1, r.distVal p.2 * runRate r * asp r⟩] := by
  unfold asinForecastRecords
  rw [if_neg (by simp [h1]), if_neg (not_or.mpr ⟨h2, h3⟩), if_neg h4]

/-- Whatever branch is taken, the per-asin records are two records per
forecast month, a `Net units` one and a `Net revenue` one, tagged with
the asin's own id. -/
lemma asinForecastRecords_shape (r : AsinForecastRow) :
    ∃ u v : Month → ℚ, asinForecastRecords r =
      forecastMonths.flatMap fun p =>
        [(⟨r.asinId, "Net units", p.1, u p.2⟩ : ForecastRecord),
         ⟨r.asinId, "Net revenue", p.1, v p.2⟩] := by
  unfold asinForecastRecords zeroAsinRecords
  split_ifs
  · exact ⟨fun _ => 0, fun _ => 0, rfl⟩
  · exact ⟨fun _ => 0, fun _ => 0, rfl⟩
  · exact ⟨fun _ => 0, fun _ => 0, rfl⟩
  · exact ⟨fun m => r.distVal m * runRate r,
      fun m => r.distVal m * runRate r * asp r, rfl⟩

/-- Every record the loop appends for an asin carries that asin's id. -/
lemma asinForecastRecords_asinId (r : AsinForecastRow) (rec : ForecastRecord)
    (h : rec ∈ asinForecastRecords r) : rec.asinId = r.asinId := by
  obtain ⟨u, v, hshape⟩ := asinForecastRecords_shape r
  rw [hshape] at h
  obtain ⟨p, hp, hrec⟩ := List.mem_flatMap.mp h
  simp only [List.mem_cons, List.mem_singleton, List.not_mem_nil, or_false] at hrec
  rcases hrec with rfl | rfl <;> rfl

/-- Filtering one asin's records by metric kind yields exactly the twelve
fixed forecast months, in order, for either metric. -/
lemma filter_months_pair (id : Nat) (u v : Month → ℚ) :
    (((forecastMonths.flatMap fun p =>
        [(⟨id, "Net units", p.1, u p.2⟩ : ForecastRecord),
         ⟨id, "Net revenue", p.1, v p.2⟩]).filter
      (fun rec => rec.metric == "Net units")).map (·.month)
        = forecastMonths.map (·.1)) ∧
    (((forecastMonths.flatMap fun p =>
        [(⟨id, "Net units", p.1, u p.2⟩ : ForecastRecord),
         ⟨id, "Net revenue", p.1, v p.2⟩]).filter
      (fun rec => rec.metric == "Net revenue")).map (·.month)
        = forecastMonths.map (·.1)) := by
  constructor <;> simp +decide [forecastMonths]

end Lego

namespace Lego

/-- C1: in the active branch the run rate is `l3m_units /
(unit_08+unit_09+unit_10)`, computed once, and each of the twelve forward
months gets `units = distribution[month] * run_rate` and `revenue =
units * unit_price` with the one uniform unit price. -/
theorem forecast_runrate_allocation (r : AsinForecastRow)
    (h1 : r.eol = false) (h2 : r.seasonalityId ≠ none)
    (h3 : r.distVal ⟨7, by omega⟩ ≠ 0) (h4 : anchorSum r ≠ 0) :
    runRate r = r.l3mUnits / anchorSum r ∧
    asinForecastRecords r =
      forecastMonths.flatMap fun p =>
        [⟨r.asinId, "Net units", p.1, r.distVal p.2 * runRate r⟩,
         ⟨r.asinId, "Net revenue", p.1, r.distVal p.2 * runRate r * asp r⟩] :=
  ⟨rfl, asinForecastRecords_active r h1 h2 h3 h4⟩

/-- Witness for C1 at the spec's worked scenario: run rate 200, November
2025 forecast 10 units / 100 revenue, August 2026 forecast 30 units /
300 revenue. -/
theorem forecast_runrate_allocation_witness :
    (toyRow.eol = false ∧ toyRow.seasonalityId ≠ none ∧
      toyRow.distVal ⟨7, by omega⟩ ≠ 0 ∧ anchorSum toyRow ≠ 0) ∧
    runRate toyRow = 200 ∧ asp toyRow = 10 ∧
    (⟨42, "Net units", "2025-11-01", 10⟩ : ForecastRecord)
      ∈ asinForecastRecords toyRow ∧
    (⟨42, "Net revenue", "2025-11-01", 100⟩ : ForecastRecord)
      ∈ asinForecastRecords toyRow ∧
    (⟨42, "Net units", "2026-08-01", 30⟩ : ForecastRecord)
      ∈ asinForecastRecords toyRow ∧
    (⟨42, "Net revenue", "2026-08-01", 300⟩ : ForecastRecord)
      ∈ asinForecastRecords toyRow := by
  have h1 : toyRow.eol = false := rfl
  have h2 : toyRow.seasonalityId ≠ none := by simp [toyRow]
  have h3 : toyRow.distVal ⟨7, by omega⟩ ≠ 0 := by
    norm_num [toyRow, AsinForecastRow.distVal, toysDist]
  have h4 : anchorSum toyRow ≠ 0 := by
    norm_num [anchorSum, toyRow, AsinForecastRow.distVal, toysDist]
  obtain ⟨-, hrec⟩ := forecast_runrate_allocation toyRow h1 h2 h3 h4
  have hrr : runRate toyRow = 200 := by
    norm_num [runRate, anchorSum, toyRow, AsinForecastRow.distVal, toysDist]
  have hasp : asp toyRow = 10 := by
    norm_num [asp, toyRow]
  refine ⟨⟨h1, h2, h3, h4⟩, hrr, hasp, ?_, ?_, ?_, ?_⟩ <;> rw [hrec]
  · refine List.mem_flatMap.mpr ⟨("2025-11-01", ⟨10, by omega⟩),
      by simp [forecastMonths], List.mem_cons.mpr (Or.inl ?_)⟩
    norm_num [toyRow, AsinForecastRow.distVal, toysDist, runRate, anchorSum, asp]
  · refine List.mem_flatMap.mpr ⟨("2025-11-01", ⟨10, by omega⟩),
      by simp [forecastMonths],
      List.mem_cons.mpr (Or.inr (List.mem_singleton.mpr ?_))⟩
    norm_num [toyRow, AsinForecastRow.distVal, toysDist, runRate, anchorSum, asp]
  · refine List.mem_flatMap.mpr ⟨("2026-08-01", ⟨7, by omega⟩),
      by simp [forecastMonths], List.mem_cons.mpr (Or.inl ?_)⟩
    norm_num [toyRow, AsinForecastRow.distVal, toysDist, runRate, anchorSum, asp]
  · refine List.mem_flatMap.mpr ⟨("2026-08-01", ⟨7, by omega⟩),
      by simp [forecastMonths],
      List.mem_cons.mpr (Or.inr (List.mem_singleton.mpr ?_))⟩
    norm_num [toyRow, AsinForecastRow.distVal, toysDist, runRate, anchorSum, asp]

/-- C5: when the recent window sold nothing (`l3m_units = 0`) but the
trailing year is positive, the unit price falls back to
`ltm_revenues / ltm_units`, so every revenue record equals the paired
units value times that ratio; and when neither window is positive the
unit price is 0 (every ratio is guarded, the total function never
fails). -/
theorem forecast_price_fallback (r : AsinForecastRow)
    (h1 : r.eol = false) (h2 : r.seasonalityId ≠ none)
    (h3 : r.distVal ⟨7, by omega⟩ ≠ 0) (h4 : anchorSum r ≠ 0)
    (hl3 : r.l3mUnits = 0) (hlt : r.ltmUnits > 0) (hrev : r.ltmRevenues > 0) :
    asp r = r.ltmRevenues / r.ltmUnits ∧
    (asinForecastRecords r =
      forecastMonths.flatMap fun p =>
        [⟨r.asinId, "Net units", p.1, r.distVal p.2 * runRate r⟩,
         ⟨r.asinId, "Net revenue", p.1,
            r.distVal p.2 * runRate r * (r.ltmRevenues / r.ltmUnits)⟩]) ∧
    ∀ r2 : AsinForecastRow, ¬ r2.l3mUnits > 0 → ¬ r2.ltmUnits > 0 →
      asp r2 = 0 := by
  have hasp : asp r = r.ltmRevenues / r.ltmUnits := by
    unfold asp
    rw [if_neg (by simp [hl3]), if_pos hlt]
  refine ⟨hasp, ?_, ?_⟩
  · rw [asinForecastRecords_active r h1 h2 h3 h4]
    simp only [hasp]
  · intro r2 ha hb
    unfold asp
    rw [if_neg ha, if_neg hb]

/-- Witness for C5: a product with `l3m_units = 0`, `ltm_units = 50` and
`ltm_revenues = 250` prices its forecast at 5 per unit. -/
theorem forecast_price_fallback_witness :
    (fallbackRow.eol = false ∧ fallbackRow.seasonalityId ≠ none ∧
      fallbackRow.distVal ⟨7, by omega⟩ ≠ 0 ∧ anchorSum fallbackRow ≠ 0 ∧
      fallbackRow.l3mUnits = 0 ∧ fallbackRow.ltmUnits > 0 ∧
      fallbackRow.ltmRevenues > 0) ∧
    asp fallbackRow = 5 ∧
    (asinForecastRecords fallbackRow =
      forecastMonths.flatMap fun p =>
        [⟨fallbackRow.asinId, "Net units", p.1,
            fallbackRow.distVal p.2 * runRate fallbackRow⟩,
         ⟨fallbackRow.asinId, "Net revenue", p.1,
            fallbackRow.distVal p.2 * runRate fallbackRow *
              (fallbackRow.ltmRevenues / fallbackRow.ltmUnits)⟩]) := by
  have h1 : fallbackRow.eol = false := rfl
  have h2 : fallbackRow.seasonalityId ≠ none := by simp [fallbackRow]
  have h3 : fallbackRow.distVal ⟨7, by omega⟩ ≠ 0 := by
    norm_num [fallbackRow, AsinForecastRow.distVal, toysDist]
  have h4 : anchorSum fallbackRow ≠ 0 := by
    norm_num [anchorSum, fallbackRow, AsinForecastRow.distVal, toysDist]
  have hl3 : fallbackRow.l3mUnits = 0 := rfl
  have hlt : fallbackRow.ltmUnits > 0 := by norm_num [fallbackRow]
  have hrev : fallbackRow.ltmRevenues > 0 := by norm_num [fallbackRow]
  obtain ⟨hasp, hlist, -⟩ :=
    forecast_price_fallback fallbackRow h1 h2 h3 h4 hl3 hlt hrev
  refine ⟨⟨h1, h2, h3, h4, hl3, hlt, hrev⟩, ?_, hlist⟩
  rw [hasp]
  norm_num [fallbackRow]

/-- C3: a brand-assigned product that is EOL, lacks a seasonality group,
has a zero/absent `unit_08` factor, or a zero anchor-window sum gets the
24 explicit zero records (12 `Net units` + 12 `Net revenue`, every value
exactly 0), and those records are really inserted by the full run. -/
theorem forecast_zeroing (asins : List AsinForecastRow) (r : AsinForecastRow)
    (hmem : r ∈ asins) (hb : r.brandId.isSome = true)
    (hzero : r.eol = true ∨ r.seasonalityId = none ∨
      r.distVal ⟨7, by omega⟩ = 0 ∨ anchorSum r = 0) :
    asinForecastRecords r = zeroAsinRecords r.asinId ∧
    (zeroAsinRecords r.asinId).length = 24 ∧
    (∀ rec ∈ zeroAsinRecords r.asinId, rec.value = 0) ∧
    ((zeroAsinRecords r.asinId).filter
      (fun rec => rec.metric == "Net units")).length = 12 ∧
    ((zeroAsinRecords r.asinId).filter
      (fun rec => rec.metric == "Net revenue")).length = 12 ∧
    ∀ rec ∈ zeroAsinRecords r.asinId, rec ∈ computeAsinForecasts asins := by
  have hzrec : asinForecastRecords r = zeroAsinRecords r.asinId := by
    unfold asinForecastRecords
    split_ifs with hE hS hA
    · rfl
    · rfl
    · rfl
    · exfalso
      rcases hzero with h | h | h | h
      · exact hE h
      · exact hS (Or.inl h)
      · exact hS (Or.inr h)
      · exact hA h
  refine ⟨hzrec, rfl, ?_, rfl, rfl, ?_⟩
  · intro rec hrec
    obtain ⟨p, hp, h2⟩ := List.mem_flatMap.mp hrec
    simp only [List.mem_cons, List.mem_singleton, List.not_mem_nil,
      or_false] at h2
    rcases h2 with rfl | rfl <;> rfl
  · intro rec hrec
    refine List.mem_flatMap.mpr ⟨r, List.mem_filter.mpr ⟨hmem, hb⟩, ?_⟩
    rw [hzrec]
    exact hrec

/-- Witness for C3 at a concrete EOL product: the run writes its 24 zero
records. -/
theorem forecast_zeroing_witness :
    (eolRow ∈ [eolRow] ∧ eolRow.brandId.isSome = true ∧
      (eolRow.eol = true ∨ eolRow.seasonalityId = none ∨
        eolRow.distVal ⟨7, by omega⟩ = 0 ∨ anchorSum eolRow = 0)) ∧
    (asinForecastRecords eolRow = zeroAsinRecords eolRow.asinId ∧
    (zeroAsinRecords eolRow.asinId).length = 24 ∧
    (∀ rec ∈ zeroAsinRecords eolRow.asinId, rec.value = 0) ∧
    ((zeroAsinRecords eolRow.asinId).filter
      (fun rec => rec.metric == "Net units")).length = 12 ∧
    ((zeroAsinRecords eolRow.asinId).filter
      (fun rec => rec.metric == "Net revenue")).length = 12 ∧
    ∀ rec ∈ zeroAsinRecords eolRow.asinId,
      rec ∈ computeAsinForecasts [eolRow]) := by
  have hmem : eolRow ∈ [eolRow] := List.mem_singleton.mpr rfl
  have hb : eolRow.brandId.isSome = true := rfl
  have hz : eolRow.eol = true ∨ eolRow.seasonalityId = none ∨
      eolRow.distVal ⟨7, by omega⟩ = 0 ∨ anchorSum eolRow = 0 :=
    Or.inl rfl
  exact ⟨⟨hmem, hb, hz⟩, forecast_zeroing [eolRow] eolRow hmem hb hz⟩

/-- C4: the overstock UPDATE gives every brand-assigned asin
`overstock_units = max(0, stock_units - forecast_6m_units)` and an
overstock value equal to the spec's `overstock_units * unit_cogs` (0
unless `overstock_units > 0`), and both results are non-negative. -/
theorem overstock_formulas (t : List ForecastRecord) (a : AsinOverstockRow)
    (hb : a.brandId.isSome = true) :
    (overstockStep t a).stockOverstockUnit =
      max 0 (a.stockUnits - forecast6mUnits t a.asinId) ∧
    (overstockStep t a).stockOverstockValue =
      (if 0 < (overstockStep t a).stockOverstockUnit then
        (overstockStep t a).stockOverstockUnit * unitCogsSpec a
       else 0) ∧
    0 ≤ (overstockStep t a).stockOverstockUnit ∧
    0 ≤ (overstockStep t a).stockOverstockValue := by
  have hunit : (overstockStep t a).stockOverstockUnit =
      max 0 (a.stockUnits - forecast6mUnits t a.asinId) := by
    simp [overstockStep, hb]
  have hval : (overstockStep t a).stockOverstockValue =
      (if a.stockUnits > 0 ∧ a.stockValue > 0 ∧
          a.stockUnits - forecast6mUnits t a.asinId > 0 then
        (a.stockUnits - forecast6mUnits t a.asinId) *
          (a.stockValue / a.stockUnits)
       else 0) := by
    simp [overstockStep, hb]
  have hcase : (overstockStep t a).stockOverstockValue =
      (if 0 < (overstockStep t a).stockOverstockUnit then
        (overstockStep t a).stockOverstockUnit * unitCogsSpec a
       else 0) := by
    rw [hval, hunit]
    by_cases hpos : 0 < a.stockUnits - forecast6mUnits t a.asinId
    · rw [max_eq_right hpos.le, if_pos hpos]
      by_cases hsv : a.stockUnits > 0 ∧ a.stockValue > 0
      · rw [if_pos ⟨hsv.1, hsv.2, hpos⟩, unitCogsSpec, if_pos hsv]
      · rw [if_neg (fun hc => hsv ⟨hc.1, hc.2.1⟩), unitCogsSpec, if_neg hsv,
          mul_zero]
    · rw [max_eq_left (le_of_not_lt hpos),
        if_neg (fun hc => hpos hc.2.2), if_neg (lt_irrefl 0)]
  have hu0 : 0 ≤ (overstockStep t a).stockOverstockUnit := by
    rw [hunit]; exact le_max_left 0 _
  refine ⟨hunit, hcase, hu0, ?_⟩
  rw [hcase]
  by_cases hou : 0 < (overstockStep t a).stockOverstockUnit
  · rw [if_pos hou]
    refine mul_nonneg hou.le ?_
    unfold unitCogsSpec
    by_cases hsv : a.stockUnits > 0 ∧ a.stockValue > 0
    · rw [if_pos hsv]
      exact div_nonneg hsv.2.le hsv.1.le
    · rw [if_neg hsv]
  · rw [if_neg hou]

/-- Witness for C4 at the spec's overstock scenario: stock 500 units /
1000 value against a 6-month forecast of 300 units leaves 200 overstock
units worth 400. -/
theorem overstock_formulas_witness :
    stockRow.brandId.isSome = true ∧
    forecast6mUnits stockTable stockRow.asinId = 300 ∧
    unitCogsSpec stockRow = 2 ∧
    (overstockStep stockTable stockRow).stockOverstockUnit = 200 ∧
    (overstockStep stockTable stockRow).stockOverstockValue = 400 ∧
    0 ≤ (overstockStep stockTable stockRow).stockOverstockUnit ∧
    0 ≤ (overstockStep stockTable stockRow).stockOverstockValue := by
  have hb : stockRow.brandId.isSome = true := rfl
  obtain ⟨hunit, hval, hu0, hv0⟩ := overstock_formulas stockTable stockRow hb
  have hf6 : forecast6mUnits stockTable stockRow.asinId = 300 := by
    simp +decide [forecast6mUnits, stockTable, first6Months, stockRow]
  have hcogs : unitCogsSpec stockRow = 2 := by
    norm_num [unitCogsSpec, stockRow]
  have hou : (overstockStep stockTable stockRow).stockOverstockUnit = 200 := by
    rw [hunit, hf6]
    norm_num [stockRow]
  refine ⟨hb, hf6, hcogs, hou, ?_, hu0, hv0⟩
  rw [hval, hou, hcogs]
  norm_num

/-- C8: the product-to-brand rollups are pure functions of the current
child rows: running the brand forecast aggregation or the brand overstock
aggregation twice on unchanged child data produces exactly the state one
run produces, and the aggregated brand forecast has no duplicate
(brand, metric, month) rows. -/
theorem rollup_idempotent (db : ForecastDB) (asins : List AsinOverstockRow)
    (brands : List BrandOverstockRow) :
    runBrandForecasts (runBrandForecasts db) = runBrandForecasts db ∧
    computeBrandOverstock asins (computeBrandOverstock asins brands) =
      computeBrandOverstock asins brands ∧
    ((runBrandForecasts db).forecastBrand.map
      (fun rec => (rec.brandId, rec.metric, rec.month))).Nodup := by
  refine ⟨rfl, ?_, ?_⟩
  · unfold computeBrandOverstock
    rw [List.map_map]
    exact congrArg (fun f => List.map f brands) (funext fun b => rfl)
  · show ((groupBySum (joinedBrandRows db.asins db.forecastAsin)).map
      (fun rec => (rec.brandId, rec.metric, rec.month))).Nodup
    unfold groupBySum
    rw [List.map_map]
    have hid : ((fun rec : BrandForecastRecord =>
        (rec.brandId, rec.metric, rec.month)) ∘
        (fun k : Nat × String × String =>
          (⟨k.1, k.2.1, k.2.2,
            (((joinedBrandRows db.asins db.forecastAsin).filter
              (·.1 == k)).map (·.2)).sum⟩ : BrandForecastRecord))) = id :=
      funext fun k => rfl
    rw [hid, List.map_id]
    exact List.nodup_dedup _

/-- C10: the all-brands pass of the trailing-metrics job only selects
brands whose group is NULL or differs from `stock`; a brand in group
`stock` fails the selection and its row — all four cached LTM columns
included — is byte-identical after the run. -/
theorem ltm_stock_brand_untouched (facts : List BrandSummaryFact)
    (stocks : List StockRow) (asins : List AsinBrandRow)
    (brands : List BrandRow) (b : BrandRow) (i : Nat)
    (hget : brands[i]? = some b) (hgrp : b.grp = some "stock") :
    ltmBrandSelected b = false ∧
    (computeBrandLtmMetricsAll facts stocks asins brands)[i]? = some b := by
  have hsel : ltmBrandSelected b = false := by
    simp [ltmBrandSelected, hgrp]
  refine ⟨hsel, ?_⟩
  unfold computeBrandLtmMetricsAll
  rw [List.getElem?_map, hget]
  simp [hsel]

/-- With pairwise-distinct asin ids, filtering the whole run's records
down to one asin's id reduces to that asin's own contribution. -/
lemma filter_flatMap_single (l : List AsinForecastRow) (a : AsinForecastRow)
    (ha : a ∈ l) (hnd : (l.map (·.asinId)).Nodup)
    (p : ForecastRecord → Bool) :
    (l.flatMap asinForecastRecords).filter
      (fun rec => rec.asinId == a.asinId && p rec) =
    (asinForecastRecords a).filter
      (fun rec => rec.asinId == a.asinId && p rec) := by
  induction l with
  | nil => cases ha
  | cons b t ih =>
    rw [List.flatMap_cons, List.filter_append]
    rw [List.map_cons, List.nodup_cons] at hnd
    rcases List.mem_cons.mp ha with heq | hat
    · subst heq
      have hnil : (t.flatMap asinForecastRecords).filter
          (fun rec => rec.asinId == a.asinId && p rec) = [] := by
        rw [List.filter_eq_nil_iff]
        intro rec hrec hcontra
        obtain ⟨c, hc, hrc⟩ := List.mem_flatMap.mp hrec
        have hcid := asinForecastRecords_asinId c rec hrc
        have hreq : rec.asinId = a.asinId :=
          beq_iff_eq.mp (Bool.and_elim_left hcontra)
        exact hnd.1 (List.mem_map.mpr ⟨c, hc, by rw [← hcid, hreq]⟩)
      rw [hnil, List.append_nil]
    · have hnil : (asinForecastRecords b).filter
          (fun rec => rec.asinId == a.asinId && p rec) = [] := by
        rw [List.filter_eq_nil_iff]
        intro rec hrec hcontra
        have hbid := asinForecastRecords_asinId b rec hrec
        have hreq : rec.asinId = a.asinId :=
          beq_iff_eq.mp (Bool.and_elim_left hcontra)
        exact hnd.1 (List.mem_map.mpr ⟨a, hat, by rw [← hreq, hbid]⟩)
      rw [hnil, List.nil_append]
      exact ih hat hnd.2

/-- C6: after a full forecast run with pairwise-distinct asin ids, the
forecast table is exactly the recomputed records (prior rows all
deleted); every brand-assigned product has exactly the twelve fixed
future months Nov 2025 – Oct 2026, in order, for each of `Net units` and
`Net revenue`; and every row in the table belongs to some current
brand-assigned product (no stale rows, no duplicates). -/
theorem forecast_full_run_invariant (db : ForecastDB)
    (hnd : (db.asins.map (·.asinId)).Nodup)
    (r : AsinForecastRow) (hmem : r ∈ db.asins)
    (hb : r.brandId.isSome = true) :
    (runAsinForecastAll db).forecastAsin = computeAsinForecasts db.asins ∧
    (((runAsinForecastAll db).forecastAsin.filter
      (fun rec => rec.asinId == r.asinId && rec.metric == "Net units")).map
        (·.month) = forecastMonths.map (·.1)) ∧
    (((runAsinForecastAll db).forecastAsin.filter
      (fun rec => rec.asinId == r.asinId && rec.metric == "Net revenue")).map
        (·.month) = forecastMonths.map (·.1)) ∧
    ∀ rec ∈ (runAsinForecastAll db).forecastAsin,
      ∃ a ∈ db.asins, a.brandId.isSome = true ∧ rec.asinId = a.asinId := by
  have hmemf : r ∈ db.asins.filter (fun a => a.brandId.isSome) :=
    List.mem_filter.mpr ⟨hmem, hb⟩
  have hndf : ((db.asins.filter (fun a => a.brandId.isSome)).map
      (·.asinId)).Nodup :=
    hnd.sublist ((List.filter_sublist db.asins).map (·.asinId))
  obtain ⟨u, v, hshape⟩ := asinForecastRecords_shape r
  have hown : ∀ q : ForecastRecord → Bool,
      (asinForecastRecords r).filter
        (fun rec => rec.asinId == r.asinId && q rec) =
      (asinForecastRecords r).filter q := by
    intro q
    refine List.filter_congr fun rec hrec => ?_
    rw [asinForecastRecords_asinId r rec hrec]
    simp
  refine ⟨rfl, ?_, ?_, ?_⟩
  · show (((db.asins.filter (fun a => a.brandId.isSome)).flatMap
      asinForecastRecords).filter
        (fun rec => rec.asinId == r.asinId && rec.metric == "Net units")).map
          (·.month) = forecastMonths.map (·.1)
    rw [filter_flatMap_single _ r hmemf hndf, hown, hshape]
    exact (filter_months_pair r.asinId u v).1
  · show (((db.asins.filter (fun a => a.brandId.isSome)).flatMap
      asinForecastRecords).filter
        (fun rec => rec.asinId == r.asinId && rec.metric == "Net revenue")).map
          (·.month) = forecastMonths.map (·.1)
    rw [filter_flatMap_single _ r hmemf hndf, hown, hshape]
    exact (filter_months_pair r.asinId u v).2
  · intro rec hrec
    obtain ⟨a, hafilter, harec⟩ := List.mem_flatMap.mp hrec
    obtain ⟨hamem, hasome⟩ := List.mem_filter.mp hafilter
    exact ⟨a, hamem, hasome, asinForecastRecords_asinId a rec harec⟩

/-- Witness for C6: a one-product database holding the worked `Toys`
product. -/
theorem forecast_full_run_invariant_witness :
    (((⟨[toyRow], [], []⟩ : ForecastDB).asins.map (·.asinId)).Nodup ∧
      toyRow ∈ (⟨[toyRow], [], []⟩ : ForecastDB).asins ∧
      toyRow.brandId.isSome = true) ∧
    ((runAsinForecastAll ⟨[toyRow], [], []⟩).forecastAsin =
        computeAsinForecasts [toyRow] ∧
    (((runAsinForecastAll ⟨[toyRow], [], []⟩).forecastAsin.filter
      (fun rec => rec.asinId == toyRow.asinId &&
        rec.metric == "Net units")).map (·.month) =
          forecastMonths.map (·.1)) ∧
    (((runAsinForecastAll ⟨[toyRow], [], []⟩).forecastAsin.filter
      (fun rec => rec.asinId == toyRow.asinId &&
        rec.metric == "Net revenue")).map (·.month) =
          forecastMonths.map (·.1)) ∧
    ∀ rec ∈ (runAsinForecastAll ⟨[toyRow], [], []⟩).forecastAsin,
      ∃ a ∈ [toyRow], a.brandId.isSome = true ∧ rec.asinId = a.asinId) := by
  have h1 : (([toyRow].map (·.asinId)).Nodup) := by simp
  have h2 : toyRow ∈ [toyRow] := List.mem_singleton.mpr rfl
  have h3 : toyRow.brandId.isSome = true := rfl
  exact ⟨⟨h1, h2, h3⟩,
    forecast_full_run_invariant ⟨[toyRow], [], []⟩ h1 toyRow h2 h3⟩

/-- Witness for C10: a `stock`-group brand with nonzero facts available
keeps its cached metrics unchanged through the run. -/
theorem ltm_stock_brand_untouched_witness :
    ([stockBrand][0]? = some stockBrand ∧ stockBrand.grp = some "stock") ∧
    (ltmBrandSelected stockBrand = false ∧
      (computeBrandLtmMetricsAll brandFacts [] [] [stockBrand])[0]? =
        some stockBrand) :=
  ⟨⟨rfl, rfl⟩,
    ltm_stock_brand_untouched brandFacts [] [] [stockBrand] stockBrand 0
      rfl rfl⟩

end Lego
